import Mathlib

/-
Shallow embedding of src/matchzoo/engine/base_model.py.

BaseModel is a configuration-and-delegation wrapper around an injected
keras backend model.  Python values stored in the parameter table are
embedded as the inductive type PyVal; the parameter table ModelParams,
the task registry and the keras backend are not under src/ and are
modelled from the spec where noted.  Machine state touched by save and
load_model is a small flat file-system value FS; paths are modelled as
(directory, filename) pairs.  Exceptions are the explicit error type
PyErr carried in Except results.
-/

namespace MatchZoo

/-- Modelled from the spec: a matchzoo task object (the concrete task
classes are not under src/).  The only interface base_model.py uses is
list_available_metrics and list_available_losses, embedded as the two
list fields. -/
structure Task where
  availableMetrics : List String
  availableLosses : List String
deriving DecidableEq

/-- Modelled from the spec: a task class in the registry.  Index 0 of the
registry is an abstract class, which cannot be instantiated; this is
embedded as instantiate = none. -/
structure TaskClass where
  instantiate : Option Task
deriving DecidableEq

/-- Modelled from the spec: the concrete second registered task.  Its
metric and loss names are placeholders; base_model.py only treats them as
opaque lists. -/
def secondTask : Task :=
  { availableMetrics := ["average_precision", "precision_at_k"]
    availableLosses := ["categorical_crossentropy", "mean_squared_error"] }

/-- Modelled from the spec: engine.list_available_tasks returns the task
registry, whose index 0 points to an abstract task class. -/
def list_available_tasks : List TaskClass :=
  [{ instantiate := Option.none }, { instantiate := Option.some secondTask }]

/-- Embedded Python values that can sit in a model parameter table:
None, strings, task instances, lists of shape tuples, lists of strings,
function objects (not picklable), and model classes.  A class value
carries the class name and the result of the get_default_params
classmethod of that class. -/
inductive PyVal : Type where
  | pynone : PyVal
  | str : String → PyVal
  | task : Task → PyVal
  | shapes : List (List Int) → PyVal
  | strList : List String → PyVal
  | func : Nat → PyVal
  | cls : String → List (String × PyVal) → PyVal

def PyVal.isNone : PyVal → Bool
  | .pynone => true
  | _ => false

def PyVal.isClass : PyVal → Bool
  | .cls _ _ => true
  | _ => false

/-- Whether pickle can serialise the value.  Function objects (for
example lambdas) are not picklable; classes pickle by reference and
primitive containers pickle structurally. -/
def PyVal.picklable : PyVal → Bool
  | .func _ => false
  | _ => true

/-- View of a value as a task object: task instances are the values
carrying the list_available_metrics and list_available_losses
attributes. -/
def PyVal.asTask : PyVal → Option Task
  | .task t => Option.some t
  | _ => Option.none

/-- View of a value as a class object: class values are the callables
that construct a model. -/
def PyVal.asClass : PyVal → Option (String × List (String × PyVal))
  | .cls kn kd => Option.some (kn, kd)
  | _ => Option.none

/-- Modelled from the spec: engine.ModelParams is a named, serialisable
key-value configuration.  It is embedded as an insertion-ordered
association list; reading an unset key yields None. -/
abbrev ModelParams : Type := List (String × PyVal)

/-- Lookup in an association list. -/
def assocGet {α β : Type} [DecidableEq α] : List (α × β) → α → Option β
  | [], _ => Option.none
  | (k, v) :: rest, key => if k = key then Option.some v else assocGet rest key

/-- Update-or-append in an association list. -/
def assocSet {α β : Type} [DecidableEq α] : List (α × β) → α → β → List (α × β)
  | [], key, v => [(key, v)]
  | (k, w) :: rest, key, v =>
      if k = key then (key, v) :: rest else (k, w) :: assocSet rest key v

/-- Reading a key of the parameter table; an unset key reads as None. -/
def ModelParams.get (p : ModelParams) (key : String) : PyVal :=
  (assocGet p key).getD PyVal.pynone

/-- Assigning a key of the parameter table. -/
def ModelParams.set (p : ModelParams) (key : String) (v : PyVal) : ModelParams :=
  assocSet p key v

/-- pickle.dump succeeds exactly when every stored value is picklable. -/
def ModelParams.picklable (p : ModelParams) : Bool :=
  p.all (fun e => PyVal.picklable e.2)

/-- Modelled from the spec: ModelParams() constructs an empty
configuration with no key set. -/
def ModelParams.init : ModelParams := []

abbrev NDArray : Type := List Int
abbrev History : Type := List Int
abbrev EvalResult : Type := List Int

/-- The argument record of one keras compile call: base_model.py passes
exactly an optimizer, a loss and a metrics argument. -/
structure CompileCall where
  optimizer : PyVal
  loss : PyVal
  metrics : PyVal

/-- The injected keras backend model.  Training, evaluation and
prediction are opaque functions of their arguments; compiling stores the
compile arguments on the backend. -/
structure Backend where
  fit : NDArray → NDArray → Nat → Nat → History
  evaluate : NDArray → NDArray → Nat → EvalResult
  predict : NDArray → Nat → NDArray
  compiled : Option CompileCall

/-- keras Model.compile: records the compile arguments on the backend. -/
def Backend.compile (b : Backend) (c : CompileCall) : Backend :=
  { b with compiled := Option.some c }

/-- Embedded Python exceptions raised by the embedded code paths. -/
inductive PyErr : Type where
  | fileExistsError : PyErr
  | fileNotFoundError : PyErr
  | ioError : PyErr
  | attributeError : PyErr
  | typeError : PyErr
  | picklingError : PyErr
  | indexError : PyErr
deriving DecidableEq

/-- A BaseModel instance: its concrete class (name plus the
get_default_params classmethod result of that class, standing for
self.__class__), the parameter table and the optional keras backend. -/
structure BaseModel where
  klassName : String
  klassDefaults : ModelParams
  params : ModelParams
  backend : Option Backend

/-- BaseModel.__init__: self._params = params or self.get_default_params();
a None argument and a falsy (empty) mapping both select the class
defaults.  self._backend = backend. -/
def BaseModel.init (klassName : String) (klassDefaults : ModelParams)
    (params : Option ModelParams) (backend : Option Backend) : BaseModel :=
  { klassName := klassName
    klassDefaults := klassDefaults
    params :=
      match params with
      | Option.none => klassDefaults
      | Option.some p => if p.isEmpty then klassDefaults else p
    backend := backend }

/-- BaseModel.get_default_params on the base class: returns
engine.ModelParams(), a fresh empty configuration. -/
def BaseModel.get_default_params : ModelParams := ModelParams.init

/-- BaseModel.compile: self._backend.compile(optimizer=..., loss=...,
metrics=...).  A missing backend (None) raises AttributeError. -/
def BaseModel.compile (m : BaseModel) : Except PyErr BaseModel :=
  match m.backend with
  | Option.none => Except.error PyErr.attributeError
  | Option.some b =>
      Except.ok { m with backend := Option.some (b.compile
        { optimizer := ModelParams.get m.params "optimizer"
          loss := ModelParams.get m.params "loss"
          metrics := ModelParams.get m.params "metrics" }) }

/-- BaseModel.fit: return self._backend.fit(x=x, y=y,
batch_size=batch_size, epochs=epochs), with defaults 128 and 1. -/
def BaseModel.fit (m : BaseModel) (x : NDArray) (y : NDArray)
    (batch_size : Nat := 128) (epochs : Nat := 1) : Except PyErr History :=
  match m.backend with
  | Option.none => Except.error PyErr.attributeError
  | Option.some b => Except.ok (b.fit x y batch_size epochs)

/-- BaseModel.evaluate: return self._backend.evaluate(x=x, y=y,
batch_size=batch_size), with default 128. -/
def BaseModel.evaluate (m : BaseModel) (x : NDArray) (y : NDArray)
    (batch_size : Nat := 128) : Except PyErr EvalResult :=
  match m.backend with
  | Option.none => Except.error PyErr.attributeError
  | Option.some b => Except.ok (b.evaluate x y batch_size)

/-- BaseModel.predict: return self._backend.predict(x=x,
batch_size=batch_size), with default 128. -/
def BaseModel.predict (m : BaseModel) (x : NDArray)
    (batch_size : Nat := 128) : Except PyErr NDArray :=
  match m.backend with
  | Option.none => Except.error PyErr.attributeError
  | Option.some b => Except.ok (b.predict x batch_size)

def BaseModel.BACKEND_FILENAME : String := "backend.h5"

def BaseModel.PARAMS_FILENAME : String := "params.pkl"

/-- The content of one file on disk: either a keras h5 checkpoint of a
backend, or a pickle of a parameter table. -/
inductive FileContent : Type where
  | backendCkpt : Backend → FileContent
  | pickled : ModelParams → FileContent

/-- A flat file system: the set of directories that exist, and the files
keyed by (directory, filename). -/
structure FS where
  dirs : List String
  files : List ((String × String) × FileContent)

def FS.pathExists (fs : FS) (d : String) : Bool := fs.dirs.contains d

def FS.mkdir (fs : FS) (d : String) : FS := { fs with dirs := fs.dirs ++ [d] }

def FS.writeFile (fs : FS) (p : String × String) (c : FileContent) : FS :=
  { fs with files := assocSet fs.files p c }

def FS.readFile (fs : FS) (p : String × String) : Option FileContent :=
  assocGet fs.files p

/-- BaseModel.save: raise FileExistsError if dirpath exists, otherwise
create it, write the backend checkpoint backend.h5 by the keras native
save, then pickle the parameter table to params.pkl.  A missing backend
raises AttributeError after the directory was created; an unpicklable
parameter table raises PicklingError after backend.h5 was written.  The
result carries the outcome and the file system after the side effects
performed up to that point. -/
def BaseModel.save (m : BaseModel) (dirpath : String) (fs : FS) :
    Except PyErr Unit × FS :=
  if fs.pathExists dirpath then
    (Except.error PyErr.fileExistsError, fs)
  else
    match m.backend with
    | Option.none => (Except.error PyErr.attributeError, fs.mkdir dirpath)
    | Option.some b =>
        if ModelParams.picklable m.params then
          (Except.ok (),
            ((fs.mkdir dirpath).writeFile
                (dirpath, BaseModel.BACKEND_FILENAME) (FileContent.backendCkpt b)).writeFile
              (dirpath, BaseModel.PARAMS_FILENAME) (FileContent.pickled m.params))
        else
          (Except.error PyErr.picklingError,
            (fs.mkdir dirpath).writeFile
              (dirpath, BaseModel.BACKEND_FILENAME) (FileContent.backendCkpt b))

/-- load_model: keras.models.load_model on dirpath/backend.h5,
pickle.load on dirpath/params.pkl, then call
params["model_class"](params=params, backend=backend).  A missing file
or a file of the wrong kind raises; a model_class value that is not a
class is not callable and raises TypeError.  (A function object cannot
occur here in data produced by pickle, functions being unpicklable.) -/
def load_model (dirpath : String) (fs : FS) : Except PyErr BaseModel :=
  match fs.readFile (dirpath, BaseModel.BACKEND_FILENAME) with
  | Option.none => Except.error PyErr.ioError
  | Option.some (FileContent.pickled _) => Except.error PyErr.ioError
  | Option.some (FileContent.backendCkpt b) =>
      match fs.readFile (dirpath, BaseModel.PARAMS_FILENAME) with
      | Option.none => Except.error PyErr.fileNotFoundError
      | Option.some (FileContent.backendCkpt _) =>
          Except.error PyErr.ioError
      | Option.some (FileContent.pickled params) =>
          match PyVal.asClass (ModelParams.get params "model_class") with
          | Option.some (kn, kd) =>
              Except.ok (BaseModel.init kn kd (Option.some params)
                (Option.some b))
          | Option.none => Except.error PyErr.typeError

/-- One conditional fill step of guess_and_fill_missing_params for the
keys whose default never raises: if the key reads None, assign it. -/
def fillIf (key : String) (v : PyVal) (p : ModelParams) : ModelParams :=
  if (ModelParams.get p key).isNone then ModelParams.set p key v else p

/-- The task fill step: engine.list_available_tasks()[1]() when the task
key reads None.  A short registry raises IndexError, an abstract entry
raises TypeError. -/
def fillTask (p : ModelParams) : Except PyErr Unit × ModelParams :=
  if (ModelParams.get p "task").isNone then
    match list_available_tasks.get? 1 with
    | Option.none => (Except.error PyErr.indexError, p)
    | Option.some tc =>
        match tc.instantiate with
        | Option.none => (Except.error PyErr.typeError, p)
        | Option.some t => (Except.ok (), ModelParams.set p "task" (PyVal.task t))
  else (Except.ok (), p)

/-- The metrics fill step: task.list_available_metrics() when the
metrics key reads None.  A task value that is not a task object raises
AttributeError. -/
def fillMetrics (p : ModelParams) : Except PyErr Unit × ModelParams :=
  if (ModelParams.get p "metrics").isNone then
    match PyVal.asTask (ModelParams.get p "task") with
    | Option.some t =>
        (Except.ok (), ModelParams.set p "metrics" (PyVal.strList t.availableMetrics))
    | Option.none => (Except.error PyErr.attributeError, p)
  else (Except.ok (), p)

/-- The loss fill step: task.list_available_losses()[0] when the loss
key reads None.  A task value that is not a task object raises
AttributeError; an empty loss list raises IndexError. -/
def fillLoss (p : ModelParams) : Except PyErr Unit × ModelParams :=
  if (ModelParams.get p "loss").isNone then
    match PyVal.asTask (ModelParams.get p "task") with
    | Option.some t =>
        match t.availableLosses.head? with
        | Option.none => (Except.error PyErr.indexError, p)
        | Option.some l => (Except.ok (), ModelParams.set p "loss" (PyVal.str l))
    | Option.none => (Except.error PyErr.attributeError, p)
  else (Except.ok (), p)

/-- The body of guess_and_fill_missing_params at the parameter-table
level, in source order: name, model_class, task, input_shapes, metrics,
loss, optimizer.  An exception keeps the assignments already made. -/
def fillMissing (kn : String) (kd : ModelParams) (p : ModelParams) :
    Except PyErr Unit × ModelParams :=
  match fillTask (fillIf "model_class" (PyVal.cls kn kd)
      (fillIf "name" (PyVal.str kn) p)) with
  | (Except.error e, q) => (Except.error e, q)
  | (Except.ok _, p3) =>
      match fillMetrics (fillIf "input_shapes" (PyVal.shapes [[30], [30]]) p3) with
      | (Except.error e, q) => (Except.error e, q)
      | (Except.ok _, p5) =>
          match fillLoss p5 with
          | (Except.error e, q) => (Except.error e, q)
          | (Except.ok _, p6) =>
              (Except.ok (), fillIf "optimizer" (PyVal.str "adam") p6)

/-- BaseModel.guess_and_fill_missing_params: fill the seven standard
keys of self._params in place; the class name and the class itself feed
the name and model_class defaults. -/
def BaseModel.guess_and_fill_missing_params (m : BaseModel) :
    Except PyErr Unit × BaseModel :=
  match fillMissing m.klassName m.klassDefaults m.params with
  | (r, p) => (r, { m with params := p })

/-- BaseModel.all_params_filled: all(value is not None for value in
self._params.values()). -/
def BaseModel.all_params_filled (m : BaseModel) : Bool :=
  m.params.all (fun e => !(PyVal.isNone e.2))

/-- The seven keys guess_and_fill_missing_params may assign. -/
def standardKeys : List String :=
  ["name", "model_class", "task", "input_shapes", "metrics", "loss", "optimizer"]

/-- A concrete keras backend used to evaluate the embedding on concrete
inputs. -/
def exBackend : Backend :=
  { fit := fun x y bs ep => x ++ y ++ [Int.ofNat bs, Int.ofNat ep]
    evaluate := fun x y bs => x ++ y ++ [Int.ofNat bs]
    predict := fun x bs => x ++ [Int.ofNat bs]
    compiled := Option.none }

/-- The empty file system. -/
def emptyFS : FS := { dirs := [], files := [] }

/-- A nonempty class default table, as a subclass get_default_params
would return. -/
def exDefaults : ModelParams := [("num_eggs", PyVal.str "512")]

/-- A model whose params never had model_class set or guessed. -/
def exModelNoClass : BaseModel :=
  { klassName := "NaiveModel"
    klassDefaults := []
    params := [("optimizer", PyVal.str "adam")]
    backend := Option.some exBackend }

/-- A parameter table with a model_class entry. -/
def exParams : ModelParams :=
  [("model_class", PyVal.cls "NaiveModel" []), ("optimizer", PyVal.str "adam")]

/-- A model ready for a full save and load round trip. -/
def exModel : BaseModel :=
  { klassName := "NaiveModel"
    klassDefaults := []
    params := exParams
    backend := Option.some exBackend }

/-- A freshly constructed model of a subclass that inherits the base
get_default_params. -/
def exFreshModel : BaseModel :=
  BaseModel.init "NaiveModel" BaseModel.get_default_params Option.none Option.none

/-- A file system that already holds the directory d. -/
def fsWithD : FS := { dirs := ["d"], files := [] }

/-- A file system holding a saved model directory whose parameter table
records a model class. -/
def exSavedFS : FS :=
  { dirs := ["d"]
    files := [(("d", "backend.h5"), FileContent.backendCkpt exBackend),
              (("d", "params.pkl"), FileContent.pickled exParams)] }

/-- A file system holding a saved model directory whose parameter table
has no model_class entry. -/
def exSavedFSNoClass : FS :=
  { dirs := ["d"]
    files := [(("d", "backend.h5"), FileContent.backendCkpt exBackend),
              (("d", "params.pkl"),
                FileContent.pickled [("optimizer", PyVal.str "adam")])] }

theorem assocGet_set_self {α β : Type} [DecidableEq α]
    (l : List (α × β)) (k : α) (v : β) :
    assocGet (assocSet l k v) k = Option.some v := by
  induction l with
  | nil => simp [assocSet, assocGet]
  | cons e rest ih =>
      rcases e with ⟨k1, w⟩
      by_cases h : k1 = k
      · subst h
        simp [assocSet, assocGet]
      · simp [assocSet, assocGet, h, ih]

theorem assocGet_set_ne {α β : Type} [DecidableEq α]
    (l : List (α × β)) (k k' : α) (v : β) (h : k' ≠ k) :
    assocGet (assocSet l k v) k' = assocGet l k' := by
  have h' : ¬ k = k' := fun hh => h (Eq.symm hh)
  induction l with
  | nil => simp [assocSet, assocGet, h']
  | cons e rest ih =>
      rcases e with ⟨k1, w⟩
      by_cases h1 : k1 = k
      · subst h1
        simp [assocSet, assocGet, h']
      · simp only [assocSet, if_neg h1]
        by_cases h2 : k1 = k'
        · subst h2
          simp [assocGet]
        · simp [assocGet, h2, ih]

theorem ModelParams.get_set_self (p : ModelParams) (k : String) (v : PyVal) :
    ModelParams.get (ModelParams.set p k v) k = v := by
  simp [ModelParams.get, ModelParams.set, assocGet_set_self]

theorem ModelParams.get_set_ne (p : ModelParams) (k k' : String) (v : PyVal)
    (h : k' ≠ k) :
    ModelParams.get (ModelParams.set p k v) k' = ModelParams.get p k' := by
  simp [ModelParams.get, ModelParams.set, assocGet_set_ne p k k' v h]

theorem ModelParams.get_nonempty (p : ModelParams) (k : String)
    (h : (ModelParams.get p k).isNone = false) : p.isEmpty = false := by
  cases p with
  | nil => simp [ModelParams.get, assocGet, PyVal.isNone] at h
  | cons e rest => simp

theorem fillIf_get_ne (key : String) (v : PyVal) (p : ModelParams) (k : String)
    (h : k ≠ key) :
    ModelParams.get (fillIf key v p) k = ModelParams.get p k := by
  unfold fillIf
  split
  · exact ModelParams.get_set_ne p key k v h
  · rfl

theorem fillIf_skip (key : String) (v : PyVal) (p : ModelParams)
    (h : (ModelParams.get p key).isNone = false) : fillIf key v p = p := by
  unfold fillIf
  simp [h]

theorem fillIf_fill (key : String) (v : PyVal) (p : ModelParams)
    (h : (ModelParams.get p key).isNone = true) :
    fillIf key v p = ModelParams.set p key v := by
  unfold fillIf
  simp [h]

theorem fillIf_get_self_notNone (key : String) (v : PyVal) (p : ModelParams)
    (hv : v.isNone = false) :
    (ModelParams.get (fillIf key v p) key).isNone = false := by
  unfold fillIf
  split
  · rw [ModelParams.get_set_self]
    exact hv
  · rename_i h
    simp only [Bool.not_eq_true] at h
    exact h

theorem fillTask_skip (p : ModelParams)
    (h : (ModelParams.get p "task").isNone = false) :
    fillTask p = (Except.ok (), p) := by
  unfold fillTask
  simp [h]

theorem fillTask_fill (p : ModelParams)
    (h : (ModelParams.get p "task").isNone = true) :
    fillTask p = (Except.ok (), ModelParams.set p "task" (PyVal.task secondTask)) := by
  unfold fillTask
  simp [h, list_available_tasks]

theorem fillTask_fst (p : ModelParams) : (fillTask p).1 = Except.ok () := by
  by_cases h : (ModelParams.get p "task").isNone = true
  · rw [fillTask_fill p h]
  · rw [fillTask_skip p (by simpa using h)]

theorem fillTask_get_ne (p : ModelParams) (k : String) (h : k ≠ "task") :
    ModelParams.get ((fillTask p).2) k = ModelParams.get p k := by
  by_cases h1 : (ModelParams.get p "task").isNone = true
  · rw [fillTask_fill p h1]
    exact ModelParams.get_set_ne p "task" k _ h
  · rw [fillTask_skip p (by simpa using h1)]

theorem fillTask_get_notNone (p : ModelParams) :
    (ModelParams.get ((fillTask p).2) "task").isNone = false := by
  by_cases h1 : (ModelParams.get p "task").isNone = true
  · rw [fillTask_fill p h1, ModelParams.get_set_self]
    rfl
  · rw [fillTask_skip p (by simpa using h1)]
    simpa using h1

theorem PyVal.asTask_eq_some (v : PyVal) (t : Task) :
    v.asTask = Option.some t ↔ v = PyVal.task t := by
  cases v <;> simp [PyVal.asTask]

theorem PyVal.asClass_eq_some (v : PyVal) (kn : String)
    (kd : List (String × PyVal)) :
    v.asClass = Option.some (kn, kd) ↔ v = PyVal.cls kn kd := by
  cases v <;> simp [PyVal.asClass]

theorem fillMetrics_skip (p : ModelParams)
    (h : (ModelParams.get p "metrics").isNone = false) :
    fillMetrics p = (Except.ok (), p) := by
  unfold fillMetrics
  simp [h]

theorem fillMetrics_fill (p : ModelParams) (t : Task)
    (hm : (ModelParams.get p "metrics").isNone = true)
    (ht : ModelParams.get p "task" = PyVal.task t) :
    fillMetrics p =
      (Except.ok (), ModelParams.set p "metrics" (PyVal.strList t.availableMetrics)) := by
  unfold fillMetrics
  simp [hm, ht, PyVal.asTask]

theorem fillMetrics_get_ne (p : ModelParams) (k : String) (h : k ≠ "metrics") :
    ModelParams.get ((fillMetrics p).2) k = ModelParams.get p k := by
  unfold fillMetrics
  split
  · split
    · exact ModelParams.get_set_ne p "metrics" k _ h
    · rfl
  · rfl

theorem fillMetrics_ok_notNone (p : ModelParams)
    (h : (fillMetrics p).1 = Except.ok ()) :
    (ModelParams.get ((fillMetrics p).2) "metrics").isNone = false := by
  by_cases h1 : (ModelParams.get p "metrics").isNone = true
  · cases hts : PyVal.asTask (ModelParams.get p "task") with
    | none =>
        exfalso
        unfold fillMetrics at h
        simp [h1, hts] at h
    | some t =>
        rw [fillMetrics_fill p t h1 ((PyVal.asTask_eq_some _ t).mp hts)]
        rw [ModelParams.get_set_self]
        rfl
  · rw [fillMetrics_skip p (by simpa using h1)]
    simpa using h1

theorem fillLoss_skip (p : ModelParams)
    (h : (ModelParams.get p "loss").isNone = false) :
    fillLoss p = (Except.ok (), p) := by
  unfold fillLoss
  simp [h]

theorem fillLoss_fill (p : ModelParams) (t : Task) (l : String)
    (hm : (ModelParams.get p "loss").isNone = true)
    (ht : ModelParams.get p "task" = PyVal.task t)
    (hl : t.availableLosses.head? = Option.some l) :
    fillLoss p = (Except.ok (), ModelParams.set p "loss" (PyVal.str l)) := by
  unfold fillLoss
  simp [hm, ht, hl, PyVal.asTask]

theorem fillLoss_get_ne (p : ModelParams) (k : String) (h : k ≠ "loss") :
    ModelParams.get ((fillLoss p).2) k = ModelParams.get p k := by
  unfold fillLoss
  split
  · split
    · split
      · rfl
      · exact ModelParams.get_set_ne p "loss" k _ h
    · rfl
  · rfl

theorem fillLoss_ok_notNone (p : ModelParams)
    (h : (fillLoss p).1 = Except.ok ()) :
    (ModelParams.get ((fillLoss p).2) "loss").isNone = false := by
  by_cases h1 : (ModelParams.get p "loss").isNone = true
  · cases hts : PyVal.asTask (ModelParams.get p "task") with
    | none =>
        exfalso
        unfold fillLoss at h
        simp [h1, hts] at h
    | some t =>
        cases hl : t.availableLosses.head? with
        | none =>
            exfalso
            unfold fillLoss at h
            simp [h1, hts, hl] at h
        | some l =>
            rw [fillLoss_fill p t l h1 ((PyVal.asTask_eq_some _ t).mp hts) hl]
            rw [ModelParams.get_set_self]
            rfl
  · rw [fillLoss_skip p (by simpa using h1)]
    simpa using h1

theorem fillIf_keep (key : String) (v : PyVal) (p : ModelParams) (k : String)
    (H : k ≠ key ∨ (ModelParams.get p k).isNone = false) :
    ModelParams.get (fillIf key v p) k = ModelParams.get p k := by
  by_cases hk : k = key
  · subst hk
    rcases H with H | H
    · exact absurd rfl H
    · rw [fillIf_skip k v p H]
  · exact fillIf_get_ne _ _ _ _ hk

theorem fillTask_keep (p : ModelParams) (k : String)
    (H : k ≠ "task" ∨ (ModelParams.get p k).isNone = false) :
    ModelParams.get ((fillTask p).2) k = ModelParams.get p k := by
  by_cases hk : k = "task"
  · subst hk
    rcases H with H | H
    · exact absurd rfl H
    · rw [fillTask_skip p H]
  · exact fillTask_get_ne p k hk

theorem fillMetrics_keep (p : ModelParams) (k : String)
    (H : k ≠ "metrics" ∨ (ModelParams.get p k).isNone = false) :
    ModelParams.get ((fillMetrics p).2) k = ModelParams.get p k := by
  by_cases hk : k = "metrics"
  · subst hk
    rcases H with H | H
    · exact absurd rfl H
    · rw [fillMetrics_skip p H]
  · exact fillMetrics_get_ne p k hk

theorem fillLoss_keep (p : ModelParams) (k : String)
    (H : k ≠ "loss" ∨ (ModelParams.get p k).isNone = false) :
    ModelParams.get ((fillLoss p).2) k = ModelParams.get p k := by
  by_cases hk : k = "loss"
  · subst hk
    rcases H with H | H
    · exact absurd rfl H
    · rw [fillLoss_skip p H]
  · exact fillLoss_get_ne p k hk

theorem fillMissing_get_pres (kn : String) (kd : ModelParams) (p : ModelParams)
    (k : String)
    (H : (¬ k ∈ standardKeys) ∨ (ModelParams.get p k).isNone = false) :
    ModelParams.get ((fillMissing kn kd p).2) k = ModelParams.get p k := by
  have hne : ¬ k ∈ standardKeys → ∀ key ∈ standardKeys, k ≠ key := by
    intro hmem key hkey he
    exact hmem (he ▸ hkey)
  have step : ∀ (q : ModelParams) (key : String), key ∈ standardKeys →
      ModelParams.get q k = ModelParams.get p k →
      (k ≠ key ∨ (ModelParams.get q k).isNone = false) := by
    intro q key hkey hq
    rcases H with H | H
    · exact Or.inl (hne H key hkey)
    · exact Or.inr (hq ▸ H)
  have m1 : ("name" : String) ∈ standardKeys := by simp [standardKeys]
  have m2 : ("model_class" : String) ∈ standardKeys := by simp [standardKeys]
  have m3 : ("task" : String) ∈ standardKeys := by simp [standardKeys]
  have m4 : ("input_shapes" : String) ∈ standardKeys := by simp [standardKeys]
  have m5 : ("metrics" : String) ∈ standardKeys := by simp [standardKeys]
  have m6 : ("loss" : String) ∈ standardKeys := by simp [standardKeys]
  have m7 : ("optimizer" : String) ∈ standardKeys := by simp [standardKeys]
  have e1 : ModelParams.get (fillIf "name" (PyVal.str kn) p) k
      = ModelParams.get p k :=
    fillIf_keep _ _ _ _ (step p "name" m1 rfl)
  have e2 : ModelParams.get (fillIf "model_class" (PyVal.cls kn kd)
        (fillIf "name" (PyVal.str kn) p)) k = ModelParams.get p k := by
    rw [fillIf_keep _ _ _ _ (step _ "model_class" m2 e1), e1]
  have e3 : ModelParams.get ((fillTask (fillIf "model_class" (PyVal.cls kn kd)
        (fillIf "name" (PyVal.str kn) p))).2) k = ModelParams.get p k := by
    rw [fillTask_keep _ _ (step _ "task" m3 e2), e2]
  unfold fillMissing
  split
  · rename_i e q heq
    have hf := fillTask_fst (fillIf "model_class" (PyVal.cls kn kd)
      (fillIf "name" (PyVal.str kn) p))
    rw [heq] at hf
    exact absurd hf (by simp)
  · rename_i u p3 heq
    have hp3 : (fillTask (fillIf "model_class" (PyVal.cls kn kd)
        (fillIf "name" (PyVal.str kn) p))).2 = p3 := congrArg Prod.snd heq
    have e3' : ModelParams.get p3 k = ModelParams.get p k := hp3 ▸ e3
    have e4 : ModelParams.get (fillIf "input_shapes" (PyVal.shapes [[30], [30]]) p3) k
        = ModelParams.get p k := by
      rw [fillIf_keep _ _ _ _ (step _ "input_shapes" m4 e3'), e3']
    have e5 : ModelParams.get ((fillMetrics
        (fillIf "input_shapes" (PyVal.shapes [[30], [30]]) p3)).2) k
        = ModelParams.get p k := by
      rw [fillMetrics_keep _ _ (step _ "metrics" m5 e4), e4]
    split
    · rename_i e q heq2
      have hq : (fillMetrics (fillIf "input_shapes" (PyVal.shapes [[30], [30]]) p3)).2
          = q := congrArg Prod.snd heq2
      exact hq ▸ e5
    · rename_i u2 p5 heq2
      have hp5 : (fillMetrics (fillIf "input_shapes" (PyVal.shapes [[30], [30]]) p3)).2
          = p5 := congrArg Prod.snd heq2
      have e5' : ModelParams.get p5 k = ModelParams.get p k := hp5 ▸ e5
      have e6 : ModelParams.get ((fillLoss p5).2) k = ModelParams.get p k := by
        rw [fillLoss_keep _ _ (step _ "loss" m6 e5'), e5']
      split
      · rename_i e q heq3
        have hq : (fillLoss p5).2 = q := congrArg Prod.snd heq3
        exact hq ▸ e6
      · rename_i u3 p6 heq3
        have hp6 : (fillLoss p5).2 = p6 := congrArg Prod.snd heq3
        have e6' : ModelParams.get p6 k = ModelParams.get p k := hp6 ▸ e6
        rw [fillIf_keep _ _ _ _ (step _ "optimizer" m7 e6'), e6']

theorem fillMissing_ok_spec (kn : String) (kd p q : ModelParams)
    (h : fillMissing kn kd p = (Except.ok (), q)) :
    ((ModelParams.get q "name").isNone = false
      ∧ (ModelParams.get q "model_class").isNone = false
      ∧ (ModelParams.get q "task").isNone = false
      ∧ (ModelParams.get q "input_shapes").isNone = false
      ∧ (ModelParams.get q "metrics").isNone = false
      ∧ (ModelParams.get q "loss").isNone = false
      ∧ (ModelParams.get q "optimizer").isNone = false)
    ∧ ((ModelParams.get p "name").isNone = true →
        ModelParams.get q "name" = PyVal.str kn)
    ∧ ((ModelParams.get p "model_class").isNone = true →
        ModelParams.get q "model_class" = PyVal.cls kn kd)
    ∧ ((ModelParams.get p "task").isNone = true →
        ModelParams.get q "task" = PyVal.task secondTask)
    ∧ ((ModelParams.get p "input_shapes").isNone = true →
        ModelParams.get q "input_shapes" = PyVal.shapes [[30], [30]])
    ∧ ((ModelParams.get p "metrics").isNone = true →
        ∃ t, ModelParams.get q "task" = PyVal.task t
          ∧ ModelParams.get q "metrics" = PyVal.strList t.availableMetrics)
    ∧ ((ModelParams.get p "loss").isNone = true →
        ∃ t l, ModelParams.get q "task" = PyVal.task t
          ∧ t.availableLosses.head? = Option.some l
          ∧ ModelParams.get q "loss" = PyVal.str l)
    ∧ ((ModelParams.get p "optimizer").isNone = true →
        ModelParams.get q "optimizer" = PyVal.str "adam") := by
  unfold fillMissing at h
  split at h
  · exact absurd h (by simp)
  · rename_i u p3 heq
    cases u
    split at h
    · exact absurd h (by simp)
    · rename_i u2 p5 heq2
      cases u2
      split at h
      · exact absurd h (by simp)
      · rename_i u3 p6 heq3
        cases u3
        have hq : fillIf "optimizer" (PyVal.str "adam") p6 = q :=
          congrArg Prod.snd h
        have hp3 : (fillTask (fillIf "model_class" (PyVal.cls kn kd)
            (fillIf "name" (PyVal.str kn) p))).2 = p3 := congrArg Prod.snd heq
        have hp5 : (fillMetrics
            (fillIf "input_shapes" (PyVal.shapes [[30], [30]]) p3)).2 = p5 :=
          congrArg Prod.snd heq2
        have hp6 : (fillLoss p5).2 = p6 := congrArg Prod.snd heq3
        -- adjacent preservation equations, from q back to p
        have q6 : ∀ k, k ≠ "optimizer" →
            ModelParams.get q k = ModelParams.get p6 k := by
          intro k hk
          rw [← hq]
          exact fillIf_get_ne _ _ _ _ hk
        have l65 : ∀ k, k ≠ "loss" →
            ModelParams.get p6 k = ModelParams.get p5 k := by
          intro k hk
          rw [← hp6]
          exact fillLoss_get_ne _ _ hk
        have m54 : ∀ k, k ≠ "metrics" →
            ModelParams.get p5 k =
              ModelParams.get (fillIf "input_shapes" (PyVal.shapes [[30], [30]]) p3) k := by
          intro k hk
          rw [← hp5]
          exact fillMetrics_get_ne _ _ hk
        have i43 : ∀ k, k ≠ "input_shapes" →
            ModelParams.get (fillIf "input_shapes" (PyVal.shapes [[30], [30]]) p3) k =
              ModelParams.get p3 k := by
          intro k hk
          exact fillIf_get_ne _ _ _ _ hk
        have t3B : ∀ k, k ≠ "task" →
            ModelParams.get p3 k =
              ModelParams.get (fillIf "model_class" (PyVal.cls kn kd)
                (fillIf "name" (PyVal.str kn) p)) k := by
          intro k hk
          rw [← hp3]
          exact fillTask_get_ne _ _ hk
        have bBA : ∀ k, k ≠ "model_class" →
            ModelParams.get (fillIf "model_class" (PyVal.cls kn kd)
                (fillIf "name" (PyVal.str kn) p)) k =
              ModelParams.get (fillIf "name" (PyVal.str kn) p) k := by
          intro k hk
          exact fillIf_get_ne _ _ _ _ hk
        have aAp : ∀ k, k ≠ "name" →
            ModelParams.get (fillIf "name" (PyVal.str kn) p) k =
              ModelParams.get p k := by
          intro k hk
          exact fillIf_get_ne _ _ _ _ hk
        -- composed chains
        have fq5 : ∀ k, k ≠ "optimizer" → k ≠ "loss" →
            ModelParams.get q k = ModelParams.get p5 k := by
          intro k h1 h2
          rw [q6 k h1, l65 k h2]
        have fq4 : ∀ k, k ≠ "optimizer" → k ≠ "loss" → k ≠ "metrics" →
            ModelParams.get q k =
              ModelParams.get (fillIf "input_shapes" (PyVal.shapes [[30], [30]]) p3) k := by
          intro k h1 h2 h3
          rw [fq5 k h1 h2, m54 k h3]
        have fq3 : ∀ k, k ≠ "optimizer" → k ≠ "loss" → k ≠ "metrics" →
            k ≠ "input_shapes" →
            ModelParams.get q k = ModelParams.get p3 k := by
          intro k h1 h2 h3 h4
          rw [fq4 k h1 h2 h3, i43 k h4]
        have fqB : ∀ k, k ≠ "optimizer" → k ≠ "loss" → k ≠ "metrics" →
            k ≠ "input_shapes" → k ≠ "task" →
            ModelParams.get q k =
              ModelParams.get (fillIf "model_class" (PyVal.cls kn kd)
                (fillIf "name" (PyVal.str kn) p)) k := by
          intro k h1 h2 h3 h4 h5
          rw [fq3 k h1 h2 h3 h4, t3B k h5]
        have fqA : ∀ k, k ≠ "optimizer" → k ≠ "loss" → k ≠ "metrics" →
            k ≠ "input_shapes" → k ≠ "task" → k ≠ "model_class" →
            ModelParams.get q k =
              ModelParams.get (fillIf "name" (PyVal.str kn) p) k := by
          intro k h1 h2 h3 h4 h5 h6
          rw [fqB k h1 h2 h3 h4 h5, bBA k h6]
        -- backward chains from p down to the step inputs
        have bB : ∀ k, k ≠ "name" → k ≠ "model_class" →
            ModelParams.get (fillIf "model_class" (PyVal.cls kn kd)
                (fillIf "name" (PyVal.str kn) p)) k = ModelParams.get p k := by
          intro k h1 h2
          rw [bBA k h2, aAp k h1]
        have b3 : ∀ k, k ≠ "name" → k ≠ "model_class" → k ≠ "task" →
            ModelParams.get p3 k = ModelParams.get p k := by
          intro k h1 h2 h3
          rw [t3B k h3, bB k h1 h2]
        have b4 : ∀ k, k ≠ "name" → k ≠ "model_class" → k ≠ "task" →
            k ≠ "input_shapes" →
            ModelParams.get (fillIf "input_shapes" (PyVal.shapes [[30], [30]]) p3) k =
              ModelParams.get p k := by
          intro k h1 h2 h3 h4
          rw [i43 k h4, b3 k h1 h2 h3]
        have b5 : ∀ k, k ≠ "name" → k ≠ "model_class" → k ≠ "task" →
            k ≠ "input_shapes" → k ≠ "metrics" →
            ModelParams.get p5 k = ModelParams.get p k := by
          intro k h1 h2 h3 h4 h5
          rw [m54 k h5, b4 k h1 h2 h3 h4]
        refine ⟨⟨?_, ?_, ?_, ?_, ?_, ?_, ?_⟩, ?_, ?_, ?_, ?_, ?_, ?_, ?_⟩
        · rw [fqA "name" (by decide) (by decide) (by decide) (by decide)
            (by decide) (by decide)]
          exact fillIf_get_self_notNone "name" (PyVal.str kn) p rfl
        · rw [fqB "model_class" (by decide) (by decide) (by decide) (by decide)
            (by decide)]
          exact fillIf_get_self_notNone "model_class" (PyVal.cls kn kd) _ rfl
        · rw [fq3 "task" (by decide) (by decide) (by decide) (by decide), ← hp3]
          exact fillTask_get_notNone _
        · rw [fq4 "input_shapes" (by decide) (by decide) (by decide)]
          exact fillIf_get_self_notNone "input_shapes" (PyVal.shapes [[30], [30]]) p3 rfl
        · rw [fq5 "metrics" (by decide) (by decide), ← hp5]
          exact fillMetrics_ok_notNone _ (by rw [heq2])
        · rw [q6 "loss" (by decide), ← hp6]
          exact fillLoss_ok_notNone _ (by rw [heq3])
        · rw [← hq]
          exact fillIf_get_self_notNone "optimizer" (PyVal.str "adam") p6 rfl
        · intro hc
          rw [fqA "name" (by decide) (by decide) (by decide) (by decide)
            (by decide) (by decide), fillIf_fill "name" (PyVal.str kn) p hc,
            ModelParams.get_set_self]
        · intro hc
          have hcA : (ModelParams.get (fillIf "name" (PyVal.str kn) p)
              "model_class").isNone = true := by
            rw [aAp "model_class" (by decide)]
            exact hc
          rw [fqB "model_class" (by decide) (by decide) (by decide) (by decide)
            (by decide), fillIf_fill "model_class" (PyVal.cls kn kd) _ hcA,
            ModelParams.get_set_self]
        · intro hc
          have hcB : (ModelParams.get (fillIf "model_class" (PyVal.cls kn kd)
              (fillIf "name" (PyVal.str kn) p)) "task").isNone = true := by
            rw [bB "task" (by decide) (by decide)]
            exact hc
          have hfill := fillTask_fill _ hcB
          have hp3' : p3 = ModelParams.set (fillIf "model_class" (PyVal.cls kn kd)
              (fillIf "name" (PyVal.str kn) p)) "task" (PyVal.task secondTask) := by
            rw [← hp3, hfill]
          rw [fq3 "task" (by decide) (by decide) (by decide) (by decide), hp3',
            ModelParams.get_set_self]
        · intro hc
          have hc3 : (ModelParams.get p3 "input_shapes").isNone = true := by
            rw [b3 "input_shapes" (by decide) (by decide) (by decide)]
            exact hc
          rw [fq4 "input_shapes" (by decide) (by decide) (by decide),
            fillIf_fill "input_shapes" (PyVal.shapes [[30], [30]]) p3 hc3,
            ModelParams.get_set_self]
        · intro hc
          have hc4 : (ModelParams.get (fillIf "input_shapes"
              (PyVal.shapes [[30], [30]]) p3) "metrics").isNone = true := by
            rw [b4 "metrics" (by decide) (by decide) (by decide) (by decide)]
            exact hc
          unfold fillMetrics at heq2
          rw [hc4] at heq2
          simp only [if_pos] at heq2
          cases hts : PyVal.asTask (ModelParams.get
              (fillIf "input_shapes" (PyVal.shapes [[30], [30]]) p3) "task") with
          | none =>
              rw [hts] at heq2
              simp at heq2
          | some t =>
              rw [hts] at heq2
              simp only [Prod.mk.injEq, true_and] at heq2
              refine ⟨t, ?_, ?_⟩
              · rw [fq5 "task" (by decide) (by decide), ← heq2,
                  ModelParams.get_set_ne _ _ _ _ (by decide)]
                exact (PyVal.asTask_eq_some _ t).mp hts
              · rw [fq5 "metrics" (by decide) (by decide), ← heq2,
                  ModelParams.get_set_self]
        · intro hc
          have hc5 : (ModelParams.get p5 "loss").isNone = true := by
            rw [b5 "loss" (by decide) (by decide) (by decide) (by decide)
              (by decide)]
            exact hc
          unfold fillLoss at heq3
          rw [hc5] at heq3
          simp only [if_pos] at heq3
          cases hts : PyVal.asTask (ModelParams.get p5 "task") with
          | none =>
              rw [hts] at heq3
              simp at heq3
          | some t =>
              rw [hts] at heq3
              simp only [Prod.mk.injEq] at heq3
              cases hl : t.availableLosses.head? with
              | none =>
                  rw [hl] at heq3
                  simp at heq3
              | some l =>
                  rw [hl] at heq3
                  simp only [Prod.mk.injEq, true_and] at heq3
                  refine ⟨t, l, ?_, hl, ?_⟩
                  · rw [q6 "task" (by decide), ← heq3,
                      ModelParams.get_set_ne _ _ _ _ (by decide)]
                    exact (PyVal.asTask_eq_some _ t).mp hts
                  · rw [q6 "loss" (by decide), ← heq3,
                      ModelParams.get_set_self]
        · intro hc
          have hc6 : (ModelParams.get p6 "optimizer").isNone = true := by
            rw [l65 "optimizer" (by decide), b5 "optimizer" (by decide)
              (by decide) (by decide) (by decide) (by decide)]
            exact hc
          rw [← hq, fillIf_fill "optimizer" (PyVal.str "adam") p6 hc6,
            ModelParams.get_set_self]

theorem fillMissing_id_of_filled (kn : String) (kd q : ModelParams)
    (h1 : (ModelParams.get q "name").isNone = false)
    (h2 : (ModelParams.get q "model_class").isNone = false)
    (h3 : (ModelParams.get q "task").isNone = false)
    (h4 : (ModelParams.get q "input_shapes").isNone = false)
    (h5 : (ModelParams.get q "metrics").isNone = false)
    (h6 : (ModelParams.get q "loss").isNone = false)
    (h7 : (ModelParams.get q "optimizer").isNone = false) :
    fillMissing kn kd q = (Except.ok (), q) := by
  have e1 : fillIf "name" (PyVal.str kn) q = q := fillIf_skip _ _ _ h1
  have e2 : fillIf "model_class" (PyVal.cls kn kd) q = q := fillIf_skip _ _ _ h2
  have eT : fillTask q = (Except.ok (), q) := fillTask_skip q h3
  have e4 : fillIf "input_shapes" (PyVal.shapes [[30], [30]]) q = q :=
    fillIf_skip _ _ _ h4
  have eM : fillMetrics q = (Except.ok (), q) := fillMetrics_skip q h5
  have eL : fillLoss q = (Except.ok (), q) := fillLoss_skip q h6
  have e7 : fillIf "optimizer" (PyVal.str "adam") q = q := fillIf_skip _ _ _ h7
  unfold fillMissing
  rw [e1, e2, eT]
  simp [e4, eM, eL, e7]

theorem guess_eq (m : BaseModel) :
    BaseModel.guess_and_fill_missing_params m =
      ((fillMissing m.klassName m.klassDefaults m.params).1,
        { m with params := (fillMissing m.klassName m.klassDefaults m.params).2 }) := by
  unfold BaseModel.guess_and_fill_missing_params
  cases hfm : fillMissing m.klassName m.klassDefaults m.params with
  | mk r p => rfl

theorem PyVal.asClass_of_not_isClass (v : PyVal) (h : v.isClass = false) :
    v.asClass = Option.none := by
  cases v <;> simp_all [PyVal.isClass, PyVal.asClass]

theorem save_ok_spec (m : BaseModel) (dirpath : String) (fs fs' : FS)
    (h : BaseModel.save m dirpath fs = (Except.ok (), fs')) :
    ∃ b, m.backend = Option.some b
      ∧ fs.pathExists dirpath = false
      ∧ ModelParams.picklable m.params = true
      ∧ fs'.dirs = fs.dirs ++ [dirpath]
      ∧ fs'.readFile (dirpath, BaseModel.BACKEND_FILENAME)
          = Option.some (FileContent.backendCkpt b)
      ∧ fs'.readFile (dirpath, BaseModel.PARAMS_FILENAME)
          = Option.some (FileContent.pickled m.params)
      ∧ ∀ pa, pa ≠ (dirpath, BaseModel.BACKEND_FILENAME) →
          pa ≠ (dirpath, BaseModel.PARAMS_FILENAME) →
          fs'.readFile pa = fs.readFile pa := by
  unfold BaseModel.save at h
  split at h
  · exact absurd h (by simp)
  · rename_i hex
    split at h
    · exact absurd h (by simp)
    · rename_i b hbk
      split at h
      · rename_i hpk
        have hfs : ((fs.mkdir dirpath).writeFile
            (dirpath, BaseModel.BACKEND_FILENAME) (FileContent.backendCkpt b)).writeFile
            (dirpath, BaseModel.PARAMS_FILENAME)
              (FileContent.pickled m.params) = fs' := congrArg Prod.snd h
        have hne : (dirpath, BaseModel.BACKEND_FILENAME)
            ≠ (dirpath, BaseModel.PARAMS_FILENAME) := by
          intro he
          have hsnd : BaseModel.BACKEND_FILENAME = BaseModel.PARAMS_FILENAME :=
            congrArg Prod.snd he
          exact absurd hsnd (by decide)
        refine ⟨b, hbk, by simpa using hex, hpk, ?_, ?_, ?_, ?_⟩
        · rw [← hfs]
          rfl
        · rw [← hfs]
          show assocGet (assocSet (assocSet (fs.mkdir dirpath).files
            (dirpath, BaseModel.BACKEND_FILENAME) (FileContent.backendCkpt b))
            (dirpath, BaseModel.PARAMS_FILENAME) (FileContent.pickled m.params))
            (dirpath, BaseModel.BACKEND_FILENAME) = _
          rw [assocGet_set_ne _ _ _ _ hne, assocGet_set_self]
        · rw [← hfs]
          show assocGet (assocSet (assocSet (fs.mkdir dirpath).files
            (dirpath, BaseModel.BACKEND_FILENAME) (FileContent.backendCkpt b))
            (dirpath, BaseModel.PARAMS_FILENAME) (FileContent.pickled m.params))
            (dirpath, BaseModel.PARAMS_FILENAME) = _
          rw [assocGet_set_self]
        · intro pa hpa1 hpa2
          rw [← hfs]
          show assocGet (assocSet (assocSet (fs.mkdir dirpath).files
            (dirpath, BaseModel.BACKEND_FILENAME) (FileContent.backendCkpt b))
            (dirpath, BaseModel.PARAMS_FILENAME) (FileContent.pickled m.params))
            pa = _
          rw [assocGet_set_ne _ _ _ _ hpa2, assocGet_set_ne _ _ _ _ hpa1]
          rfl
      · exact absurd h (by simp)

theorem load_model_spec (dirpath : String) (fs : FS) (b : Backend)
    (params : ModelParams)
    (hb : fs.readFile (dirpath, BaseModel.BACKEND_FILENAME)
      = Option.some (FileContent.backendCkpt b))
    (hp : fs.readFile (dirpath, BaseModel.PARAMS_FILENAME)
      = Option.some (FileContent.pickled params)) :
    (∀ kn kd, ModelParams.get params "model_class" = PyVal.cls kn kd →
        load_model dirpath fs =
          Except.ok (BaseModel.init kn kd (Option.some params) (Option.some b)))
    ∧ ((ModelParams.get params "model_class").isClass = false →
        load_model dirpath fs = Except.error PyErr.typeError) := by
  constructor
  · intro kn kd hc
    unfold load_model
    rw [hb, hp]
    simp [hc, PyVal.asClass]
  · intro hic
    unfold load_model
    rw [hb, hp]
    simp [PyVal.asClass_of_not_isClass _ hic]

/-- C1 counterexample: a model with picklable params and a backend set, but
whose params never recorded a model_class, saves successfully, yet
load_model on the saved directory raises TypeError instead of returning a
model.  The round trip as claimed fails for this model. -/
theorem roundtrip_fails_without_model_class :
    ModelParams.picklable exModelNoClass.params = true
    ∧ exModelNoClass.backend = Option.some exBackend
    ∧ (BaseModel.save exModelNoClass "d" emptyFS).1 = Except.ok ()
    ∧ load_model "d" (BaseModel.save exModelNoClass "d" emptyFS).2
        = Except.error PyErr.typeError :=
  ⟨rfl, rfl, rfl, rfl⟩

/-- C1 (amended): for every model whose backend is set and whose params map
model_class to a class, after save(dirpath) succeeds, load_model(dirpath)
returns the model built by calling that class on the saved params and the
deserialised backend checkpoint; its params equal the saved params and its
backend is the deserialised checkpoint. -/
theorem save_load_roundtrip (m : BaseModel) (dirpath : String) (fs fs' : FS)
    (b : Backend) (kn : String) (kd : List (String × PyVal))
    (hb : m.backend = Option.some b)
    (hc : ModelParams.get m.params "model_class" = PyVal.cls kn kd)
    (h : BaseModel.save m dirpath fs = (Except.ok (), fs')) :
    load_model dirpath fs' =
      Except.ok (BaseModel.init kn kd (Option.some m.params) (Option.some b))
    ∧ (BaseModel.init kn kd (Option.some m.params) (Option.some b)).params
        = m.params
    ∧ (BaseModel.init kn kd (Option.some m.params) (Option.some b)).backend
        = Option.some b := by
  obtain ⟨b2, hb2, hex, hpk, hdirs, hbf, hpf, hframe⟩ :=
    save_ok_spec m dirpath fs fs' h
  rw [hb] at hb2
  have hbb : b2 = b := (Option.some.inj hb2).symm
  subst hbb
  have hne : m.params.isEmpty = false :=
    ModelParams.get_nonempty m.params "model_class" (by rw [hc]; rfl)
  refine ⟨(load_model_spec dirpath fs' b2 m.params hbf hpf).1 kn kd hc, ?_, rfl⟩
  simp [BaseModel.init, hne]

/-- C1 witness: the round trip carried out on a concrete model, directory
and file system. -/
theorem save_load_roundtrip_witness :
    load_model "d" (BaseModel.save exModel "d" emptyFS).2 =
      Except.ok (BaseModel.init "NaiveModel" [] (Option.some exModel.params)
        (Option.some exBackend))
    ∧ (BaseModel.init "NaiveModel" [] (Option.some exModel.params)
        (Option.some exBackend)).params = exModel.params :=
  ⟨(save_load_roundtrip exModel "d" emptyFS _ exBackend "NaiveModel" []
      rfl rfl rfl).1,
   (save_load_roundtrip exModel "d" emptyFS _ exBackend "NaiveModel" []
      rfl rfl rfl).2.1⟩

/-- C2: save raises FileExistsError exactly when the target directory
already exists; in that case the file system is returned unchanged, and
otherwise the directory is created. -/
theorem save_fileExistsError_iff (m : BaseModel) (dirpath : String) (fs : FS) :
    ((BaseModel.save m dirpath fs).1 = Except.error PyErr.fileExistsError
      ↔ fs.pathExists dirpath = true)
    ∧ (fs.pathExists dirpath = true →
        BaseModel.save m dirpath fs = (Except.error PyErr.fileExistsError, fs))
    ∧ (fs.pathExists dirpath = false →
        dirpath ∈ (BaseModel.save m dirpath fs).2.dirs) := by
  by_cases hex : fs.pathExists dirpath = true
  · have hsv : BaseModel.save m dirpath fs
        = (Except.error PyErr.fileExistsError, fs) := by
      unfold BaseModel.save
      rw [if_pos hex]
    refine ⟨⟨fun _ => hex, fun _ => by rw [hsv]⟩, fun _ => hsv,
      fun hf => absurd hex (by simp [hf])⟩
  · have hex' : fs.pathExists dirpath = false := by simpa using hex
    have hsave : ((BaseModel.save m dirpath fs).1
          ≠ Except.error PyErr.fileExistsError)
        ∧ dirpath ∈ (BaseModel.save m dirpath fs).2.dirs := by
      unfold BaseModel.save
      rw [if_neg (by simp [hex'])]
      cases m.backend with
      | none =>
          constructor
          · simp
          · simp [FS.mkdir]
      | some b =>
          by_cases hpk : ModelParams.picklable m.params = true
          · constructor
            · simp [hpk]
            · simp [hpk, FS.writeFile, FS.mkdir]
          · constructor
            · simp [hpk]
            · simp [hpk, FS.writeFile, FS.mkdir]
    exact ⟨⟨fun h1 => absurd h1 hsave.1, fun h2 => absurd h2 (by simp [hex'])⟩,
      fun h2 => absurd h2 (by simp [hex']), fun _ => hsave.2⟩

/-- C2 witness: on a file system already holding the directory, save fails
and changes nothing; on the empty file system it creates the directory. -/
theorem save_fileExistsError_iff_witness :
    FS.pathExists fsWithD "d" = true
    ∧ BaseModel.save exModelNoClass "d" fsWithD
        = (Except.error PyErr.fileExistsError, fsWithD)
    ∧ "d" ∈ (BaseModel.save exModelNoClass "d" emptyFS).2.dirs :=
  ⟨rfl, (save_fileExistsError_iff exModelNoClass "d" fsWithD).2.1 rfl,
   (save_fileExistsError_iff exModelNoClass "d" emptyFS).2.2 rfl⟩

/-- C3: a successful save creates the directory and writes exactly two
files into it: the keras checkpoint backend.h5 of the backend, and the
pickle params.pkl of the parameter table; every other path is
untouched. -/
theorem save_writes_exactly_two_files (m : BaseModel) (dirpath : String)
    (fs fs' : FS) (b : Backend) (hb : m.backend = Option.some b)
    (h : BaseModel.save m dirpath fs = (Except.ok (), fs')) :
    fs'.dirs = fs.dirs ++ [dirpath]
    ∧ fs'.readFile (dirpath, "backend.h5")
        = Option.some (FileContent.backendCkpt b)
    ∧ fs'.readFile (dirpath, "params.pkl")
        = Option.some (FileContent.pickled m.params)
    ∧ ∀ pa, pa ≠ (dirpath, "backend.h5") → pa ≠ (dirpath, "params.pkl") →
        fs'.readFile pa = fs.readFile pa := by
  obtain ⟨b2, hb2, hex, hpk, hdirs, hbf, hpf, hframe⟩ :=
    save_ok_spec m dirpath fs fs' h
  rw [hb] at hb2
  have hbb : b2 = b := (Option.some.inj hb2).symm
  subst hbb
  exact ⟨hdirs, hbf, hpf, hframe⟩

/-- C3 witness: the two files written by a concrete successful save. -/
theorem save_writes_exactly_two_files_witness :
    ((BaseModel.save exModel "d" emptyFS).2).dirs = emptyFS.dirs ++ ["d"]
    ∧ ((BaseModel.save exModel "d" emptyFS).2).readFile ("d", "backend.h5")
        = Option.some (FileContent.backendCkpt exBackend)
    ∧ ((BaseModel.save exModel "d" emptyFS).2).readFile ("d", "params.pkl")
        = Option.some (FileContent.pickled exModel.params) :=
  ⟨(save_writes_exactly_two_files exModel "d" emptyFS _ exBackend rfl rfl).1,
   (save_writes_exactly_two_files exModel "d" emptyFS _ exBackend rfl rfl).2.1,
   (save_writes_exactly_two_files exModel "d" emptyFS _ exBackend rfl rfl).2.2.1⟩

/-- C4: with a backend set, compile, fit, evaluate and predict are pure
pass-throughs to the backend: fit forwards x, y, batch_size and epochs
with defaults 128 and 1, evaluate forwards x, y and batch_size with
default 128, predict forwards x and batch_size with default 128, and
compile invokes the backend compile with exactly the optimizer, loss and
metrics params. -/
theorem delegation_passthrough (m : BaseModel) (b : Backend)
    (x y : NDArray) (bs ep : Nat) (hb : m.backend = Option.some b) :
    BaseModel.fit m x y bs ep = Except.ok (b.fit x y bs ep)
    ∧ BaseModel.fit m x y = Except.ok (b.fit x y 128 1)
    ∧ BaseModel.evaluate m x y bs = Except.ok (b.evaluate x y bs)
    ∧ BaseModel.evaluate m x y = Except.ok (b.evaluate x y 128)
    ∧ BaseModel.predict m x bs = Except.ok (b.predict x bs)
    ∧ BaseModel.predict m x = Except.ok (b.predict x 128)
    ∧ BaseModel.compile m = Except.ok
        { m with
          backend := Option.some (b.compile
            ⟨ModelParams.get m.params "optimizer",
              ModelParams.get m.params "loss",
              ModelParams.get m.params "metrics"⟩) } := by
  unfold BaseModel.fit BaseModel.evaluate BaseModel.predict BaseModel.compile
  rw [hb]
  exact ⟨rfl, rfl, rfl, rfl, rfl, rfl, rfl⟩

/-- C4 witness: delegation evaluated on a concrete model, backend and
inputs. -/
theorem delegation_passthrough_witness :
    BaseModel.fit exModel [1, 2] [3] 5 2 = Except.ok (exBackend.fit [1, 2] [3] 5 2)
    ∧ BaseModel.compile exModel = Except.ok
        { exModel with
          backend := Option.some (exBackend.compile
            ⟨ModelParams.get exModel.params "optimizer",
              ModelParams.get exModel.params "loss",
              ModelParams.get exModel.params "metrics"⟩) } :=
  ⟨(delegation_passthrough exModel exBackend [1, 2] [3] 5 2 rfl).1,
   (delegation_passthrough exModel exBackend [1, 2] [3] 5 2 rfl).2.2.2.2.2.2⟩

/-- C5: when guess_and_fill_missing_params returns normally, the seven
standard params are non-None, and each one that was None before received
its default: name the class name, model_class the class itself, task an
instance of the second available task, input_shapes [(30,), (30,)],
metrics the full available-metrics list of the task param, loss the first
available loss of the task param, optimizer adam. -/
theorem guess_and_fill_defaults (m m' : BaseModel)
    (h : BaseModel.guess_and_fill_missing_params m = (Except.ok (), m')) :
    ((ModelParams.get m'.params "name").isNone = false
      ∧ (ModelParams.get m'.params "model_class").isNone = false
      ∧ (ModelParams.get m'.params "task").isNone = false
      ∧ (ModelParams.get m'.params "input_shapes").isNone = false
      ∧ (ModelParams.get m'.params "metrics").isNone = false
      ∧ (ModelParams.get m'.params "loss").isNone = false
      ∧ (ModelParams.get m'.params "optimizer").isNone = false)
    ∧ ((ModelParams.get m.params "name").isNone = true →
        ModelParams.get m'.params "name" = PyVal.str m.klassName)
    ∧ ((ModelParams.get m.params "model_class").isNone = true →
        ModelParams.get m'.params "model_class"
          = PyVal.cls m.klassName m.klassDefaults)
    ∧ ((ModelParams.get m.params "task").isNone = true →
        ModelParams.get m'.params "task" = PyVal.task secondTask)
    ∧ ((ModelParams.get m.params "input_shapes").isNone = true →
        ModelParams.get m'.params "input_shapes" = PyVal.shapes [[30], [30]])
    ∧ ((ModelParams.get m.params "metrics").isNone = true →
        ∃ t, ModelParams.get m'.params "task" = PyVal.task t
          ∧ ModelParams.get m'.params "metrics"
              = PyVal.strList t.availableMetrics)
    ∧ ((ModelParams.get m.params "loss").isNone = true →
        ∃ t l, ModelParams.get m'.params "task" = PyVal.task t
          ∧ t.availableLosses.head? = Option.some l
          ∧ ModelParams.get m'.params "loss" = PyVal.str l)
    ∧ ((ModelParams.get m.params "optimizer").isNone = true →
        ModelParams.get m'.params "optimizer" = PyVal.str "adam") := by
  rw [guess_eq m] at h
  have hr : (fillMissing m.klassName m.klassDefaults m.params).1 = Except.ok () :=
    congrArg Prod.fst h
  have hm' : { m with
      params := (fillMissing m.klassName m.klassDefaults m.params).2 } = m' :=
    congrArg Prod.snd h
  have hparams : m'.params
      = (fillMissing m.klassName m.klassDefaults m.params).2 := by
    rw [← hm']
  have hfm : fillMissing m.klassName m.klassDefaults m.params =
      (Except.ok (), (fillMissing m.klassName m.klassDefaults m.params).2) :=
    Prod.ext_iff.mpr ⟨hr, rfl⟩
  rw [hparams]
  exact fillMissing_ok_spec _ _ _ _ hfm

/-- C5 witness: the defaults obtained on a freshly constructed model. -/
theorem guess_and_fill_defaults_witness :
    ModelParams.get ((BaseModel.guess_and_fill_missing_params exFreshModel).2).params
        "task" = PyVal.task secondTask
    ∧ ModelParams.get ((BaseModel.guess_and_fill_missing_params exFreshModel).2).params
        "optimizer" = PyVal.str "adam" := by
  have h := guess_and_fill_defaults exFreshModel
    ((BaseModel.guess_and_fill_missing_params exFreshModel).2) rfl
  exact ⟨h.2.2.2.1 rfl, h.2.2.2.2.2.2.2 rfl⟩

/-- C6: guess_and_fill_missing_params only fills missing values: a param
that was non-None keeps exactly its value, and no key outside the seven
standard keys is ever assigned. -/
theorem guess_and_fill_frame (m : BaseModel) (k : String) :
    ((ModelParams.get m.params k).isNone = false →
      ModelParams.get ((BaseModel.guess_and_fill_missing_params m).2).params k
        = ModelParams.get m.params k)
    ∧ (¬ k ∈ standardKeys →
      ModelParams.get ((BaseModel.guess_and_fill_missing_params m).2).params k
        = ModelParams.get m.params k) := by
  constructor
  · intro hnn
    rw [guess_eq m]
    exact fillMissing_get_pres _ _ _ _ (Or.inr hnn)
  · intro hmem
    rw [guess_eq m]
    exact fillMissing_get_pres _ _ _ _ (Or.inl hmem)

/-- C6 witness: a preset param and a non-standard key survive the call
unchanged on a concrete model. -/
theorem guess_and_fill_frame_witness :
    ModelParams.get ((BaseModel.guess_and_fill_missing_params exModelNoClass).2).params
        "optimizer" = ModelParams.get exModelNoClass.params "optimizer"
    ∧ ModelParams.get ((BaseModel.guess_and_fill_missing_params exModelNoClass).2).params
        "num_eggs" = ModelParams.get exModelNoClass.params "num_eggs" :=
  ⟨(guess_and_fill_frame exModelNoClass "optimizer").1 rfl,
   (guess_and_fill_frame exModelNoClass "num_eggs").2 (by decide)⟩

/-- C7 counterexample: get_default_params on the base class does not carry
the defaults; every default-bearing key of a freshly constructed model
reads None. -/
theorem get_default_params_unpopulated :
    ModelParams.get BaseModel.get_default_params "task" = PyVal.pynone
    ∧ ModelParams.get BaseModel.get_default_params "optimizer" = PyVal.pynone
    ∧ ModelParams.get exFreshModel.params "loss" = PyVal.pynone
    ∧ ModelParams.get exFreshModel.params "input_shapes" = PyVal.pynone
    ∧ ModelParams.get exFreshModel.params "metrics" = PyVal.pynone :=
  ⟨rfl, rfl, rfl, rfl, rfl⟩

/-- C7 (amended): get_default_params on the base class returns an empty
configuration in which every key reads None; the defaults for task,
input shapes, metrics, loss and optimizer are only installed by
guess_and_fill_missing_params, which succeeds on a freshly constructed
model and fills exactly those defaults. -/
theorem defaults_filled_by_guess (kn : String) :
    (∀ k, ModelParams.get BaseModel.get_default_params k = PyVal.pynone)
    ∧ (BaseModel.guess_and_fill_missing_params
        (BaseModel.init kn BaseModel.get_default_params Option.none
          Option.none)).1 = Except.ok ()
    ∧ ModelParams.get ((BaseModel.guess_and_fill_missing_params
        (BaseModel.init kn BaseModel.get_default_params Option.none
          Option.none)).2).params "task" = PyVal.task secondTask
    ∧ ModelParams.get ((BaseModel.guess_and_fill_missing_params
        (BaseModel.init kn BaseModel.get_default_params Option.none
          Option.none)).2).params "input_shapes" = PyVal.shapes [[30], [30]]
    ∧ ModelParams.get ((BaseModel.guess_and_fill_missing_params
        (BaseModel.init kn BaseModel.get_default_params Option.none
          Option.none)).2).params "metrics"
        = PyVal.strList secondTask.availableMetrics
    ∧ ModelParams.get ((BaseModel.guess_and_fill_missing_params
        (BaseModel.init kn BaseModel.get_default_params Option.none
          Option.none)).2).params "loss"
        = PyVal.str "categorical_crossentropy"
    ∧ ModelParams.get ((BaseModel.guess_and_fill_missing_params
        (BaseModel.init kn BaseModel.get_default_params Option.none
          Option.none)).2).params "optimizer" = PyVal.str "adam" :=
  ⟨fun _ => rfl, rfl, rfl, rfl, rfl, rfl, rfl⟩

/-- C8: the constructor tests truthiness, not is-None: an explicitly
supplied empty parameter table is discarded in favour of
get_default_params, exactly like None; a nonempty table is stored as
given. -/
theorem init_discards_falsy_params (kn : String) (kd p : ModelParams)
    (b : Option Backend) :
    (BaseModel.init kn kd Option.none b).params = kd
    ∧ (p.isEmpty = true → (BaseModel.init kn kd (Option.some p) b).params = kd)
    ∧ (p.isEmpty = false → (BaseModel.init kn kd (Option.some p) b).params = p) := by
  refine ⟨rfl, ?_, ?_⟩
  · intro h
    simp [BaseModel.init, h]
  · intro h
    simp [BaseModel.init, h]

/-- C8 witness: a concrete empty table is replaced by the class defaults
while a concrete nonempty table is kept. -/
theorem init_discards_falsy_params_witness :
    (BaseModel.init "MyModel" exDefaults (Option.some []) Option.none).params
      = exDefaults
    ∧ (BaseModel.init "MyModel" exDefaults (Option.some exParams)
        Option.none).params = exParams :=
  ⟨(init_discards_falsy_params "MyModel" exDefaults [] Option.none).2.1 rfl,
   (init_discards_falsy_params "MyModel" exDefaults exParams Option.none).2.2 rfl⟩

/-- C9: guess_and_fill_missing_params is idempotent: after a successful
call, calling it again succeeds and leaves every parameter exactly as the
first call left it. -/
theorem guess_and_fill_idempotent (m m' : BaseModel)
    (h : BaseModel.guess_and_fill_missing_params m = (Except.ok (), m')) :
    BaseModel.guess_and_fill_missing_params m' = (Except.ok (), m') := by
  rw [guess_eq m] at h
  have hr : (fillMissing m.klassName m.klassDefaults m.params).1 = Except.ok () :=
    congrArg Prod.fst h
  have hm' : { m with
      params := (fillMissing m.klassName m.klassDefaults m.params).2 } = m' :=
    congrArg Prod.snd h
  have hfm : fillMissing m.klassName m.klassDefaults m.params =
      (Except.ok (), (fillMissing m.klassName m.klassDefaults m.params).2) :=
    Prod.ext_iff.mpr ⟨hr, rfl⟩
  obtain ⟨⟨n1, n2, n3, n4, n5, n6, n7⟩, -⟩ := fillMissing_ok_spec _ _ _ _ hfm
  rw [← hm', guess_eq]
  dsimp only
  rw [fillMissing_id_of_filled m.klassName m.klassDefaults _ n1 n2 n3 n4 n5 n6 n7]

/-- C9 witness: idempotence at a concrete model. -/
theorem guess_and_fill_idempotent_witness :
    BaseModel.guess_and_fill_missing_params
        ((BaseModel.guess_and_fill_missing_params exFreshModel).2) =
      (Except.ok (), (BaseModel.guess_and_fill_missing_params exFreshModel).2) :=
  guess_and_fill_idempotent exFreshModel _ rfl

/-- C10: load_model returns the result of calling the class recorded under
model_class on the loaded params and backend, so the loaded model carries
exactly the recorded class; when model_class is absent or not a class,
load_model raises TypeError instead of succeeding. -/
theorem load_model_dispatch (dirpath : String) (fs : FS) (b : Backend)
    (params : ModelParams) (kn : String) (kd : List (String × PyVal))
    (hb : fs.readFile (dirpath, "backend.h5")
      = Option.some (FileContent.backendCkpt b))
    (hp : fs.readFile (dirpath, "params.pkl")
      = Option.some (FileContent.pickled params))
    (_hpk : ModelParams.picklable params = true) :
    (ModelParams.get params "model_class" = PyVal.cls kn kd →
        load_model dirpath fs =
          Except.ok (BaseModel.init kn kd (Option.some params) (Option.some b)))
    ∧ ((ModelParams.get params "model_class").isClass = false →
        load_model dirpath fs = Except.error PyErr.typeError) :=
  ⟨fun hc => (load_model_spec dirpath fs b params hb hp).1 kn kd hc,
   (load_model_spec dirpath fs b params hb hp).2⟩

/-- C10 witness: a saved directory with a recorded class loads into that
class; one without a model_class entry raises TypeError. -/
theorem load_model_dispatch_witness :
    load_model "d" exSavedFS =
      Except.ok (BaseModel.init "NaiveModel" [] (Option.some exParams)
        (Option.some exBackend))
    ∧ load_model "d" exSavedFSNoClass = Except.error PyErr.typeError :=
  ⟨(load_model_dispatch "d" exSavedFS exBackend exParams "NaiveModel" []
      rfl rfl rfl).1 rfl,
   (load_model_dispatch "d" exSavedFSNoClass exBackend
      [("optimizer", PyVal.str "adam")] "X" [] rfl rfl rfl).2 rfl⟩

end MatchZoo
